import Mathlib

/-!
Verification of the Madison County title-plant download pipeline.

Shallow embedding of the pipeline's core logic, translated from the Python
sources:
  * `madison_county_doc_puller/download_queue_manager.py`
    (portal routing, queue status transitions),
  * `index_database/parse_related_items.py` (related-items parser),
  * `index_database/clean_index_data.py` (cleaning dedup pass),
  * `madison_title_plant/storage/gcs_manager.py` (object-archive upload),
  * `madison_county_doc_puller/pdf_optimizer.py` (optimizer in-place mode),
  * `madison_county_doc_puller/parallel_staged_downloader.py` (worker upload
    step),
  * `madison_county_doc_puller/simple_doc_downloader.py` (instrument-number
    download).

Database rows are modelled as records, tables as association lists keyed by
id, SQL UPDATE statements as pure list transformations, HTTP and subprocess
calls as explicit outcome parameters of type `Except`, and Python strings as
Lean strings (Python slicing and `or`-fallback semantics are reproduced where
they matter).
-/

-- ===========================================================================
-- Portal routing (download_queue_manager.determine_portal)
-- ===========================================================================

/-- The three upstream portals. -/
inductive Portal where
  | historical
  | mid
  | new
deriving DecidableEq, Repr

/-- Embedding of `determine_portal` (download_queue_manager.py lines 33-55).
The Python raises `ValueError` in the final `else`; that branch is the
`Except.error` case here. -/
def determinePortal (book : Int) : Except String Portal :=
  if book < 238 then Except.ok Portal.historical
  else if 238 ≤ book ∧ book < 3972 then Except.ok Portal.mid
  else if 3972 ≤ book then Except.ok Portal.new
  else Except.error "Invalid book number"

-- ===========================================================================
-- Queue manager status transitions (DownloadQueueManager)
-- ===========================================================================

/-- The `download_status` enumeration. -/
inductive DStatus where
  | pending
  | in_progress
  | completed
  | failed
  | skipped
deriving DecidableEq, Repr

/-- The workflow fields of one `index_documents` row that the queue-manager
transitions read or write. -/
structure QRow where
  download_status : DStatus
  download_attempts : Nat
  download_error : Option String
  updated_at : Nat
deriving DecidableEq, Repr

/-- The table, as an association list of (id, row); ids are the primary key. -/
def QTable := List (Nat × QRow)

/-- `SELECT ... WHERE id = %s` with `fetchone()`: the first row with the id. -/
def rowById (table : QTable) (docId : Nat) : Option QRow :=
  (table.find? (fun p => p.1 = docId)).map (fun p => p.2)

/-- `UPDATE index_documents SET ... WHERE id = %s`: rewrite every row whose id
matches. -/
def updateById (table : QTable) (docId : Nat) (f : QRow → QRow) : QTable :=
  table.map (fun p => if p.1 = docId then (p.1, f p.2) else p)

/-- Embedding of `DownloadQueueManager.mark_in_progress` (lines 221-250).
The UPDATE has no `download_status = 'pending'` condition: it sets the status,
increments `download_attempts` and stamps `updated_at` for whatever row has
the id, and the method returns `True`.  (The `psycopg2.Error` rollback branch
models transport failure and is outside this embedding.) -/
def markInProgress (table : QTable) (docId : Nat) (now : Nat) : QTable × Bool :=
  (updateById table docId (fun r =>
      { r with download_status := DStatus.in_progress,
               download_attempts := r.download_attempts + 1,
               updated_at := now }),
   true)

/-- Embedding of `DownloadQueueManager.mark_failed` (lines 296-346): read the
row's `download_attempts`; if the row is missing return `False`; pick
`'pending'` when `retry` and attempts < 5, else `'failed'`; write the status
and the error message truncated to 500 characters. -/
def markFailed (table : QTable) (docId : Nat) (errorMessage : String)
    (retry : Bool) (now : Nat) : QTable × Bool :=
  match rowById table docId with
  | none => (table, false)
  | some row =>
    let status := if retry ∧ row.download_attempts < 5
                  then DStatus.pending else DStatus.failed
    (updateById table docId (fun r =>
        { r with download_status := status,
                 download_error := some (errorMessage.take 500),
                 updated_at := now }),
     true)

-- ===========================================================================
-- Theorems: portal routing (C3, C9)
-- ===========================================================================

/-- C3: `determine_portal` is total on book numbers ≥ 1, returning exactly one
of the three portals, and at the range boundaries it maps 1 and 237 to the
historical portal, 238 and 3971 to the mid portal, and 3972 to the new
portal. -/
theorem determinePortal_total_and_boundaries :
    (∀ book : Int, 1 ≤ book → ∃! p : Portal, determinePortal book = Except.ok p)
    ∧ determinePortal 1 = Except.ok Portal.historical
    ∧ determinePortal 237 = Except.ok Portal.historical
    ∧ determinePortal 238 = Except.ok Portal.mid
    ∧ determinePortal 3971 = Except.ok Portal.mid
    ∧ determinePortal 3972 = Except.ok Portal.new := by
  refine ⟨?_, rfl, rfl, rfl, rfl, rfl⟩
  intro book _
  unfold determinePortal
  by_cases h1 : book < 238
  · exact ⟨Portal.historical, by simp [h1], by intro y hy; simp [h1] at hy; exact hy.symm⟩
  · by_cases h2 : 238 ≤ book ∧ book < 3972
    · exact ⟨Portal.mid, by simp [h1, h2], by intro y hy; simp [h1, h2] at hy; exact hy.symm⟩
    · have h3 : 3972 ≤ book := by omega
      exact ⟨Portal.new, by simp [h1, h2, h3], by intro y hy; simp [h1, h2, h3] at hy; exact hy.symm⟩

/-- Witness for C3: the totality conjunct applied at book 5. -/
theorem determinePortal_total_and_boundaries_witness :
    ∃! p : Portal, determinePortal 5 = Except.ok p :=
  determinePortal_total_and_boundaries.1 5 (by norm_num)

/-- C9: `determine_portal` is total over all integers and never reaches its
`ValueError` branch; every book ≤ 0 falls into the `book < 238` branch and is
routed to the historical portal. -/
theorem determinePortal_total_all_ints :
    (∀ book : Int, ∃ p : Portal, determinePortal book = Except.ok p)
    ∧ (∀ book : Int, book ≤ 0 →
        determinePortal book = Except.ok Portal.historical) := by
  constructor
  · intro book
    unfold determinePortal
    by_cases h1 : book < 238
    · exact ⟨Portal.historical, by simp [h1]⟩
    · by_cases h2 : 238 ≤ book ∧ book < 3972
      · exact ⟨Portal.mid, by simp [h1, h2]⟩
      · have h3 : 3972 ≤ book := by omega
        exact ⟨Portal.new, by simp [h1, h2, h3]⟩
  · intro book hb
    have h1 : book < 238 := by omega
    unfold determinePortal
    simp [h1]

/-- Witness for C9: book −5 routes to the historical portal. -/
theorem determinePortal_total_all_ints_witness :
    determinePortal (-5) = Except.ok Portal.historical :=
  determinePortal_total_all_ints.2 (-5) (by norm_num)

-- ===========================================================================
-- Theorems: queue status transitions (C1, C4)
-- ===========================================================================

/-- Updating a row by id and then reading it back yields the transformed row. -/
theorem rowById_updateById (t : QTable) (docId : Nat) (f : QRow → QRow) :
    rowById (updateById t docId f) docId = (rowById t docId).map f := by
  induction t with
  | nil => rfl
  | cons a t ih =>
    by_cases h : a.1 = docId
    · simp [rowById, updateById, List.find?, h]
    · simpa [rowById, updateById, List.find?, h] using ih

/-- C1 counterexample: `mark_in_progress` on a row whose status is
`completed` (not `pending`) still reports success and rewrites the row,
setting `in_progress` and incrementing `download_attempts` — the UPDATE has no
`download_status = 'pending'` guard, so the claimed compare-and-set failure
does not happen. -/
theorem markInProgress_no_cas_counterexample :
    (markInProgress [(1, ⟨DStatus.completed, 3, none, 0⟩)] 1 7).2 = true
    ∧ rowById (markInProgress [(1, ⟨DStatus.completed, 3, none, 0⟩)] 1 7).1 1 =
        some ⟨DStatus.in_progress, 4, none, 7⟩
    ∧ (⟨DStatus.completed, 3, none, 0⟩ : QRow).download_status ≠ DStatus.pending := by
  decide

/-- C1 (amended): for every document id whose row exists, `mark_in_progress`
unconditionally sets `download_status` to `in_progress` and increments
`download_attempts` by exactly 1, whatever the row's current status, and it
always reports success; it performs no compare-and-set, so it does not protect
against two concurrent claims of the same record. -/
theorem markInProgress_unconditional (t : QTable) (docId now : Nat) (row : QRow)
    (h : rowById t docId = some row) :
    (markInProgress t docId now).2 = true
    ∧ rowById (markInProgress t docId now).1 docId =
        some { row with download_status := DStatus.in_progress,
                        download_attempts := row.download_attempts + 1,
                        updated_at := now } := by
  refine ⟨rfl, ?_⟩
  show rowById (updateById t docId (fun r =>
      { r with download_status := DStatus.in_progress,
               download_attempts := r.download_attempts + 1,
               updated_at := now })) docId = _
  rw [rowById_updateById, h]
  rfl

/-- Witness for C1's amended theorem: a concrete one-row table with a `failed`
row is still claimed successfully. -/
theorem markInProgress_unconditional_witness :
    (markInProgress [(2, ⟨DStatus.failed, 1, none, 0⟩)] 2 9).2 = true
    ∧ rowById (markInProgress [(2, ⟨DStatus.failed, 1, none, 0⟩)] 2 9).1 2 =
        some ⟨DStatus.in_progress, 2, none, 9⟩ :=
  markInProgress_unconditional [(2, ⟨DStatus.failed, 1, none, 0⟩)] 2 9
    ⟨DStatus.failed, 1, none, 0⟩ rfl

/-- C4: for every document id whose row exists, `mark_failed(id, error,
retry)` reports success; it sets `download_status` back to `pending` when
`retry` is true and the row's `download_attempts` is strictly below 5, and to
`failed` when the attempts are ≥ 5 or `retry` is false; in every case
`download_error` is set to the error message truncated to 500 characters. -/
theorem markFailed_spec (t : QTable) (docId now : Nat) (err : String)
    (retry : Bool) (row : QRow) (h : rowById t docId = some row) :
    (markFailed t docId err retry now).2 = true
    ∧ rowById (markFailed t docId err retry now).1 docId =
        some { row with
               download_status := if retry ∧ row.download_attempts < 5
                                  then DStatus.pending else DStatus.failed,
               download_error := some (err.take 500),
               updated_at := now }
    ∧ (retry = true → row.download_attempts < 5 →
        (rowById (markFailed t docId err retry now).1 docId).map
            QRow.download_status = some DStatus.pending)
    ∧ (retry = false ∨ 5 ≤ row.download_attempts →
        (rowById (markFailed t docId err retry now).1 docId).map
            QRow.download_status = some DStatus.failed)
    ∧ (rowById (markFailed t docId err retry now).1 docId).map
          QRow.download_error = some (some (err.take 500)) := by
  have e : markFailed t docId err retry now =
      (updateById t docId (fun r =>
        { r with download_status := if retry ∧ row.download_attempts < 5
                                    then DStatus.pending else DStatus.failed,
                 download_error := some (err.take 500),
                 updated_at := now }), true) := by
    unfold markFailed
    rw [h]
  have e1 : (markFailed t docId err retry now).1 =
      updateById t docId (fun r =>
        { r with download_status := if retry ∧ row.download_attempts < 5
                                    then DStatus.pending else DStatus.failed,
                 download_error := some (err.take 500),
                 updated_at := now }) := by
    rw [e]
  have hmain : rowById (markFailed t docId err retry now).1 docId =
      some { row with
             download_status := if retry ∧ row.download_attempts < 5
                                then DStatus.pending else DStatus.failed,
             download_error := some (err.take 500),
             updated_at := now } := by
    rw [e1, rowById_updateById, h]
    rfl
  have hok : (markFailed t docId err retry now).2 = true := by
    rw [e]
  refine ⟨hok, hmain, ?_, ?_, ?_⟩
  · intro hr ha
    rw [hmain]
    simp [hr, ha]
  · intro hcase
    rw [hmain]
    have hneg : ¬ (retry = true ∧ row.download_attempts < 5) := by
      rintro ⟨hr, hlt⟩
      rcases hcase with hf | ha
      · rw [hf] at hr; exact Bool.false_ne_true hr
      · omega
    simp [hneg]
  · rw [hmain]
    rfl

/-- Witness for C4: a row with 5 prior attempts and `retry = true` lands in
`failed` with the truncated error recorded. -/
theorem markFailed_spec_witness :
    (markFailed [(3, ⟨DStatus.in_progress, 5, none, 1⟩)] 3 "boom" true 9).2 = true
    ∧ (rowById (markFailed [(3, ⟨DStatus.in_progress, 5, none, 1⟩)] 3 "boom"
          true 9).1 3).map QRow.download_status = some DStatus.failed :=
  ⟨(markFailed_spec [(3, ⟨DStatus.in_progress, 5, none, 1⟩)] 3 9 "boom" true
      ⟨DStatus.in_progress, 5, none, 1⟩ rfl).1,
   (markFailed_spec [(3, ⟨DStatus.in_progress, 5, none, 1⟩)] 3 9 "boom" true
      ⟨DStatus.in_progress, 5, none, 1⟩ rfl).2.2.2.1 (Or.inr (by norm_num))⟩

-- ===========================================================================
-- Related-items parser (parse_related_items.parse_related_item)
-- ===========================================================================

/-- One structured cross-reference produced by the parser; `exists_in_db` and
`target_id` stay `none` until the cross-reference pass fills them. -/
structure RelatedRef where
  instrument_number : Nat
  book : Nat
  page : Nat
  exists_in_db : Option Bool
  target_id : Option Nat
deriving DecidableEq, Repr

/-- Python `\s` on ASCII text: space, tab, newline, carriage return, vertical
tab, form feed. -/
def pyIsSpace (c : Char) : Bool :=
  c = ' ' ∨ c = '\t' ∨ c = '\n' ∨ c = '\r' ∨ c = Char.ofNat 11 ∨ c = Char.ofNat 12

/-- Python `str.strip()`: drop leading and trailing whitespace. -/
def pyStrip (s : List Char) : List Char :=
  ((s.dropWhile pyIsSpace).reverse.dropWhile pyIsSpace).reverse

/-- Python `str.split('\n')`: split at every newline, keeping empty pieces. -/
def splitNl : List Char → List (List Char)
  | [] => [[]]
  | c :: rest =>
    match splitNl rest with
    | [] => [[]]
    | l :: ls => if c = '\n' then [] :: l :: ls else (c :: l) :: ls

/-- Numeric value of a digit run (regex groups are converted with `int`). -/
def digitsVal (ds : List Char) : Nat :=
  ds.foldl (fun acc c => acc * 10 + (c.toNat - 48)) 0

/-- Attempt the regex `(\d+)\s+bk:(\d+)\s*/(\d+)` (RELATED_ITEM_PATTERN,
parse_related_items.py line 55) at the head of the text.  Greedy matching of
each `\d+`/`\s+`/`\s*` run is exact here because every run is followed by a
literal outside its character class, so the regex engine never backtracks.
Returns the three captured numbers and the text after the match. -/
def matchAt (s : List Char) : Option (Nat × Nat × Nat × List Char) :=
  let (d1, r1) := s.span (fun c => c.isDigit)
  if d1 = [] then none else
  let (sp1, r2) := r1.span pyIsSpace
  if sp1 = [] then none else
  match r2 with
  | 'b' :: 'k' :: ':' :: r3 =>
    let (d2, r4) := r3.span (fun c => c.isDigit)
    if d2 = [] then none else
    let (_, r5) := r4.span pyIsSpace
    match r5 with
    | '/' :: r6 =>
      let (d3, r7) := r6.span (fun c => c.isDigit)
      if d3 = [] then none else
      some (digitsVal d1, digitsVal d2, digitsVal d3, r7)
    | _ => none
  | _ => none

/-- `re.findall`: scan left to right, taking the leftmost match, then resume
after it (non-overlapping).  Each step consumes at least one character, so
fuel `length + 1` is always enough. -/
def findAll : Nat → List Char → List (Nat × Nat × Nat)
  | 0, _ => []
  | _, [] => []
  | fuel + 1, s@(_ :: rest) =>
    match matchAt s with
    | some (a, b, p, r) => (a, b, p) :: findAll fuel r
    | none => findAll fuel rest

/-- The `seen`-set deduplication loop of `parse_related_item`: keep the first
occurrence of each (instrument, book, page) key, in encounter order. -/
def dedupRefs : List (Nat × Nat × Nat) → List (Nat × Nat × Nat) → List RelatedRef
  | [], _ => []
  | k :: rest, seen =>
    if k ∈ seen then dedupRefs rest seen
    else ⟨k.1, k.2.1, k.2.2, none, none⟩ :: dedupRefs rest (k :: seen)

/-- Embedding of `parse_related_item` (parse_related_items.py lines 151-195):
empty or all-whitespace input gives `[]`; otherwise strip, split into lines,
apply the regex globally to each line, and deduplicate across the row. -/
def parseRelatedItem (rawText : String) : List RelatedRef :=
  let s := rawText.toList
  if s = [] ∨ pyStrip s = [] then []
  else
    let lines := splitNl (pyStrip s)
    let ms := lines.flatMap (fun l => findAll (l.length + 1) l)
    dedupRefs ms []

-- ===========================================================================
-- Theorems: related-items parse (C2)
-- ===========================================================================

/-- C2 counterexample: on the scenario input the parser does NOT return the
two claimed references.  The second line is `"67890 bk:501 /  13"`, and
`RELATED_ITEM_PATTERN` = `(\d+)\s+bk:(\d+)\s*/(\d+)` only allows whitespace
before the slash, not between the slash and the page digits, so that line
produces no match at all. -/
theorem parseRelatedItem_scenario_counterexample :
    parseRelatedItem "12345 bk:500/12\n67890 bk:501 /  13\n12345 bk:500/12" ≠
      [⟨12345, 500, 12, none, none⟩, ⟨67890, 501, 13, none, none⟩] := by
  decide

/-- C2 (amended): on the raw string `"12345 bk:500/12\n67890 bk:501 /  13\n
12345 bk:500/12"` the parser returns exactly one reference,
{instrument_number 12345, book 500, page 12} — the duplicate third line is
removed, and the second line yields nothing because its whitespace after the
slash defeats the regex. -/
theorem parseRelatedItem_scenario_amended :
    parseRelatedItem "12345 bk:500/12\n67890 bk:501 /  13\n12345 bk:500/12" =
      [⟨12345, 500, 12, none, none⟩] := by
  decide

-- ===========================================================================
-- Worker upload step (parallel_staged_downloader.DownloadWorker._upload_to_gcs)
-- ===========================================================================

/-- Python `x or default` on an optional string: `None` and `""` are falsy. -/
def pyOrStr (o : Option String) (d : String) : String :=
  match o with
  | none => d
  | some s => if s = "" then d else s

/-- Python `x or default` on an optional integer: `None` and `0` are falsy. -/
def pyOrNat (o : Option Nat) (d : Nat) : Nat :=
  match o with
  | none => d
  | some n => if n = 0 then d else n

/-- Python `str.lower()` (ASCII): lower-case each character. -/
def pyLower (s : String) : String := String.mk (s.toList.map Char.toLower)

/-- Python `str.replace('_', '-')`: single-character substring replacement is
a character map. -/
def underscoreToDash (s : String) : String :=
  String.mk (s.toList.map (fun c => if c = '_' then '-' else c))

/-- Python `f"{n:04d}"` for a non-negative integer: zero-pad to width 4. -/
def pad4 (n : Nat) : String :=
  let s := toString n
  if s.length < 4 then String.mk (List.replicate (4 - s.length) '0') ++ s else s

/-- The fields of a queue record that `_upload_to_gcs` reads. -/
structure DocRecord where
  book : Nat
  page : Nat
  document_type : Option String
  instrument_number : Option Nat
  instrument_type_parsed : Option String
deriving Repr

/-- `doc_type = (doc.get('document_type') or 'unknown').lower().replace('_', '-')`
(parallel_staged_downloader.py line 416). -/
def docTypeToken (doc : DocRecord) : String :=
  underscoreToDash (pyLower (pyOrStr doc.document_type "unknown"))

/-- The folder choice of `_upload_to_gcs` (lines 421-426). -/
def folderFor (book : Nat) : String :=
  if book < 238 then "historical"
  else if book < 1000 then "mid-early"
  else "mid-recent"

/-- `gcs_path = f"documents/{...}/{doc_type}/{book:04d}-{page:04d}.pdf"`
(line 428). -/
def gcsPathFor (doc : DocRecord) : String :=
  "documents/" ++ folderFor doc.book ++ "/" ++ docTypeToken doc ++ "/"
    ++ pad4 doc.book ++ "-" ++ pad4 doc.page ++ ".pdf"

/-- The metadata dict built at lines 431-439. -/
def gcsMetadataFor (doc : DocRecord) (originalSize optimizedSize : Nat) :
    List (String × String) :=
  [("book", toString doc.book),
   ("page", toString doc.page),
   ("instrument_number", toString (pyOrNat doc.instrument_number 0)),
   ("document_type", docTypeToken doc),
   ("instrument_type", pyOrStr doc.instrument_type_parsed ""),
   ("original_size", toString originalSize),
   ("optimized_size", toString optimizedSize)]

-- ===========================================================================
-- PDF optimizer in-place mode and the worker's optimize-then-upload step
-- ===========================================================================

/-- Embedding of `PDFOptimizer.optimize_in_place` (pdf_optimizer.py lines
127-156) for a single target file.  `gsOutcome` is the result of the
Ghostscript subprocess writing the temp file: on success the temp file
replaces the original and the byte counts are returned; on any error
(including timeout) the temp file is removed, the original file is left
intact, and the exception propagates.  The second component is the file's
content on disk after the call. -/
def optimizeInPlace (gsOutcome : Except String (List Nat))
    (fileBytes : List Nat) : Except String (Nat × Nat) × List Nat :=
  match gsOutcome with
  | Except.error e => (Except.error e, fileBytes)
  | Except.ok newBytes => (Except.ok (fileBytes.length, newBytes.length), newBytes)

/-- Embedding of the optimize step of `_upload_to_gcs`
(parallel_staged_downloader.py lines 403-413): `optimized_size` starts equal
to `original_size`; if an optimizer is present its in-place run is attempted
and any exception is caught and logged, leaving the sizes unchanged.  Returns
(file content that the subsequent upload reads, original_size,
optimized_size). -/
def uploadPrepare (hasOptimizer : Bool) (gsOutcome : Except String (List Nat))
    (fileBytes : List Nat) : List Nat × Nat × Nat :=
  let originalSize := fileBytes.length
  if hasOptimizer then
    match optimizeInPlace gsOutcome fileBytes with
    | (Except.ok (osz, psz), fileAfter) => (fileAfter, osz, psz)
    | (Except.error _, fileAfter) => (fileAfter, originalSize, originalSize)
  else (fileBytes, originalSize, originalSize)

-- ===========================================================================
-- Theorems: NULL-field upload derivation (C6)
-- ===========================================================================

/-- C6: for a record with book 9, page 264 and NULL `document_type`,
`instrument_number` and `instrument_type_parsed`, the worker derives the
object path `documents/historical/unknown/0009-0264.pdf` and metadata
`document_type="unknown"`, `instrument_number="0"`, `instrument_type=""`,
with no exception (`or`-fallbacks make every step total). -/
theorem uploadPath_null_doc_type :
    ∀ originalSize optimizedSize : Nat,
      gcsPathFor ⟨9, 264, none, none, none⟩ =
        "documents/historical/unknown/0009-0264.pdf"
      ∧ (gcsMetadataFor ⟨9, 264, none, none, none⟩ originalSize
          optimizedSize).lookup "document_type" = some "unknown"
      ∧ (gcsMetadataFor ⟨9, 264, none, none, none⟩ originalSize
          optimizedSize).lookup "instrument_number" = some "0"
      ∧ (gcsMetadataFor ⟨9, 264, none, none, none⟩ originalSize
          optimizedSize).lookup "instrument_type" = some "" := by
  intro originalSize optimizedSize
  refine ⟨by decide, ?_, ?_, ?_⟩
  · simp [gcsMetadataFor, List.lookup]
    decide
  · simp [gcsMetadataFor, List.lookup]
    decide
  · simp [gcsMetadataFor, List.lookup]
    decide

/-- Witness for C6 at concrete sizes 30000 and 15000. -/
theorem uploadPath_null_doc_type_witness :
    gcsPathFor ⟨9, 264, none, none, none⟩ =
      "documents/historical/unknown/0009-0264.pdf"
    ∧ (gcsMetadataFor ⟨9, 264, none, none, none⟩ 30000
        15000).lookup "document_type" = some "unknown"
    ∧ (gcsMetadataFor ⟨9, 264, none, none, none⟩ 30000
        15000).lookup "instrument_number" = some "0"
    ∧ (gcsMetadataFor ⟨9, 264, none, none, none⟩ 30000
        15000).lookup "instrument_type" = some "" :=
  uploadPath_null_doc_type 30000 15000

-- ===========================================================================
-- Theorems: optimizer failure is soft (C7)
-- ===========================================================================

/-- C7: if the optimizer raises or times out, the worker does not fail the
document: the upload step still returns (totality of `uploadPrepare`), the
bytes handed to the upload are the original unoptimized bytes, the reported
`optimized_size` equals `original_size`, and the file on disk is unchanged. -/
theorem optimizerFailure_soft (gsOutcome : Except String (List Nat))
    (e : String) (fileBytes : List Nat) (h : gsOutcome = Except.error e) :
    uploadPrepare true gsOutcome fileBytes =
      (fileBytes, fileBytes.length, fileBytes.length)
    ∧ (optimizeInPlace gsOutcome fileBytes).2 = fileBytes := by
  subst h
  exact ⟨rfl, rfl⟩

/-- Witness for C7: a concrete timed-out optimizer run on a 4-byte file. -/
theorem optimizerFailure_soft_witness :
    uploadPrepare true (Except.error "Optimization timeout") [37, 80, 68, 70] =
      ([37, 80, 68, 70], 4, 4)
    ∧ (optimizeInPlace (Except.error "Optimization timeout")
        [37, 80, 68, 70]).2 = [37, 80, 68, 70] :=
  optimizerFailure_soft (Except.error "Optimization timeout")
    "Optimization timeout" [37, 80, 68, 70] rfl

-- ===========================================================================
-- SHA-256 (hashlib.sha256, used by GCSManager._calculate_checksum)
-- ===========================================================================

/-- Truncate to a 32-bit word. -/
def w32 (n : Nat) : Nat := n % 4294967296

/-- Rotate a 32-bit word right by `n` bits. -/
def rotr32 (n x : Nat) : Nat :=
  w32 (x / 2 ^ n + x % 2 ^ n * 2 ^ (32 - n))

/-- Logical shift right. -/
def shr32 (n x : Nat) : Nat := x / 2 ^ n

/-- Bitwise complement on 32 bits. -/
def bnot32 (x : Nat) : Nat := Nat.xor x 4294967295

def ssig0 (x : Nat) : Nat :=
  Nat.xor (rotr32 7 x) (Nat.xor (rotr32 18 x) (shr32 3 x))

def ssig1 (x : Nat) : Nat :=
  Nat.xor (rotr32 17 x) (Nat.xor (rotr32 19 x) (shr32 10 x))

def bsig0 (x : Nat) : Nat :=
  Nat.xor (rotr32 2 x) (Nat.xor (rotr32 13 x) (rotr32 22 x))

def bsig1 (x : Nat) : Nat :=
  Nat.xor (rotr32 6 x) (Nat.xor (rotr32 11 x) (rotr32 25 x))

def chFn (x y z : Nat) : Nat :=
  Nat.xor (Nat.land x y) (Nat.land (bnot32 x) z)

def majFn (x y z : Nat) : Nat :=
  Nat.xor (Nat.land x y) (Nat.xor (Nat.land x z) (Nat.land y z))

/-- The 64 SHA-256 round constants (FIPS 180-4, written in decimal). -/
def sha256K : List Nat :=
  [1116352408, 1899447441, 3049323471, 3921009573,
   961987163, 1508970993, 2453635748, 2870763221,
   3624381080, 310598401, 607225278, 1426881987,
   1925078388, 2162078206, 2614888103, 3248222580,
   3835390401, 4022224774, 264347078, 604807628,
   770255983, 1249150122, 1555081692, 1996064986,
   2554220882, 2821834349, 2952996808, 3210313671,
   3336571891, 3584528711, 113926993, 338241895,
   666307205, 773529912, 1294757372, 1396182291,
   1695183700, 1986661051, 2177026350, 2456956037,
   2730485921, 2820302411, 3259730800, 3345764771,
   3516065817, 3600352804, 4094571909, 275423344,
   430227734, 506948616, 659060556, 883997877,
   958139571, 1322822218, 1537002063, 1747873779,
   1955562222, 2024104815, 2227730452, 2361852424,
   2428436474, 2756734187, 3204031479, 3329325298]

/-- The SHA-256 initial hash state (FIPS 180-4, written in decimal). -/
def sha256H0 : List Nat :=
  [1779033703, 3144134277, 1013904242, 2773480762,
   1359893119, 2600822924, 528734635, 1541459225]

/-- Big-endian byte expansion of `n` to `k` bytes. -/
def toBytesBE : Nat → Nat → List Nat
  | 0, _ => []
  | k + 1, n => toBytesBE k (n / 256) ++ [n % 256]

/-- SHA-256 padding: append 0x80, zeros to 56 mod 64, then the bit length as
8 big-endian bytes. -/
def sha256Pad (msg : List Nat) : List Nat :=
  let l := msg.length
  let k := (119 - l % 64) % 64
  msg ++ [128] ++ List.replicate k 0 ++ toBytesBE 8 (8 * l)

/-- Group bytes into big-endian 32-bit words. -/
def bytesToWords : List Nat → List Nat
  | b0 :: b1 :: b2 :: b3 :: rest =>
    (((b0 * 256 + b1) * 256 + b2) * 256 + b3) :: bytesToWords rest
  | _ => []

/-- Extend the 16 chunk words to the 64-word message schedule. -/
def scheduleGo : Nat → List Nat → List Nat
  | 0, w => w
  | fuel + 1, w =>
    let i := w.length
    let x := w32 (ssig1 (w.getD (i - 2) 0) + w.getD (i - 7) 0
                  + ssig0 (w.getD (i - 15) 0) + w.getD (i - 16) 0)
    scheduleGo fuel (w ++ [x])

def schedule (ws : List Nat) : List Nat := scheduleGo 48 ws

/-- One compression round on the eight-word working state. -/
def sha256Round (st : List Nat) (k w : Nat) : List Nat :=
  match st with
  | [a, b, c, d, e, f, g, h] =>
    let t1 := w32 (h + bsig1 e + chFn e f g + k + w)
    let t2 := w32 (bsig0 a + majFn a b c)
    [w32 (t1 + t2), a, b, c, w32 (d + t1), e, f, g]
  | st => st

def sha256Compress (st : List Nat) : List Nat → List Nat → List Nat
  | k :: ks, w :: ws => sha256Compress (sha256Round st k w) ks ws
  | _, _ => st

def addStates (a b : List Nat) : List Nat :=
  (a.zip b).map (fun p => w32 (p.1 + p.2))

/-- Process the padded message 64 bytes at a time. -/
def sha256Chunks : Nat → List Nat → List Nat → List Nat
  | 0, _, st => st
  | fuel + 1, bytes, st =>
    match bytes with
    | [] => st
    | _ =>
      let ws := schedule (bytesToWords (bytes.take 64))
      sha256Chunks fuel (bytes.drop 64) (addStates st (sha256Compress st sha256K ws))

/-- SHA-256 of a byte list, as eight 32-bit words. -/
def sha256Words (msg : List Nat) : List Nat :=
  let padded := sha256Pad msg
  sha256Chunks (padded.length / 64 + 1) padded sha256H0

def hexDigit (n : Nat) : Char :=
  if n < 10 then Char.ofNat (48 + n) else Char.ofNat (87 + n)

def toHex : Nat → Nat → List Char
  | 0, _ => []
  | k + 1, n => toHex k (n / 16) ++ [hexDigit (n % 16)]

/-- SHA-256 hex digest (lowercase), as `hashlib`'s `hexdigest()` returns. -/
def sha256Hex (msg : List Nat) : String :=
  String.mk ((sha256Words msg).flatMap (fun wd => toHex 8 wd))

-- FIPS 180-4 test vectors for the embedding of hashlib.sha256.
example : sha256Hex [] =
    "e3b0c44298fc1c149afbf4c8996fb92427ae41e4649b934ca495991b7852b855" := by
  decide

example : sha256Hex [97, 98, 99] =
    "ba7816bf8f01cfea414140de5dae2223b00361a396177a9cb410ff61f20015ad" := by
  decide

-- ===========================================================================
-- Object archive (gcs_manager.GCSManager.upload_file)
-- ===========================================================================

/-- A stored object: its metadata dict (absent when the object was created
without metadata) and its content bytes. -/
structure Blob where
  meta : Option (List (String × String))
  content : List Nat

/-- The bucket, as a map from object path to stored blob. -/
def GcsState := String → Option Blob

/-- Embedding of `GCSManager._calculate_checksum` (gcs_manager.py lines
222-238): SHA-256 hex digest of the file's bytes.  The Python feeds the hash
in 4096-byte chunks; a streaming hash of the chunks equals the hash of the
concatenation, so the chunking is not observable. -/
def calculateChecksum (bytes : List Nat) : String := sha256Hex bytes

/-- Python `dict.update`: the updated entries override the base entries with
the same key.  Only key lookup on the resulting dict is observable, so the
overriding entries are recorded first and shadowed base keys are dropped. -/
def pyDictUpdate (base upd : List (String × String)) : List (String × String) :=
  upd ++ base.filter (fun kv => upd.all (fun kv2 => kv2.1 ≠ kv.1))

/-- The checksum recorded on the existing object at `p`, if any:
`blob.metadata.get('checksum') if blob.metadata else None` guarded by
`blob.exists()`. -/
def existingChecksum (st : GcsState) (p : String) : Option String :=
  match st p with
  | some blob =>
    match blob.meta with
    | some m => m.lookup "checksum"
    | none => none
  | none => none

/-- Embedding of `GCSManager.upload_file` (gcs_manager.py lines 61-123):
missing local file raises; if an object already exists at `gcsPath` whose
metadata checksum equals the digest of the local bytes, return the existing
URI without uploading; otherwise upload the bytes with the metadata dict
extended by checksum, upload time and original filename, verify the blob
exists, and return the URI and checksum.  (`now` is `datetime.now()`,
`localName` is `local_path.name`; the `@retry.Retry` wrapper re-runs the
whole call on transient errors and is outside the model.) -/
def uploadFile (st : GcsState) (bucket : String) (localFile : Option (List Nat))
    (localName gcsPath : String) (metadata : Option (List (String × String)))
    (now : String) : Except String (GcsState × String × String) :=
  match localFile with
  | none => Except.error ("Local file not found: " ++ localName)
  | some bytes =>
    let checksum := calculateChecksum bytes
    let uri := "gs://" ++ bucket ++ "/" ++ gcsPath
    if existingChecksum st gcsPath = some checksum then
      Except.ok (st, uri, checksum)
    else
      let newMeta := pyDictUpdate (metadata.getD [])
        [("checksum", checksum), ("upload_time", now),
         ("original_filename", localName)]
      let st2 : GcsState :=
        fun p => if p = gcsPath then some ⟨some newMeta, bytes⟩ else st p
      if (st2 gcsPath).isSome then Except.ok (st2, uri, checksum)
      else Except.error ("Upload verification failed for " ++ gcsPath)

-- ===========================================================================
-- Theorems: upload idempotence (C5)
-- ===========================================================================

/-- C5: `upload_file` is idempotent.  (i) If an object already exists at the
destination whose stored checksum metadata equals the SHA-256 hex digest of
the local bytes, the call changes nothing and returns the existing URI with
that digest.  (ii) Uploading the same bytes to the same path twice leaves the
bucket exactly as after the first call and returns the same (URI, checksum)
pair.  (iii) Every successful call returns the SHA-256 digest of the uploaded
file's bytes. -/
theorem uploadFile_idempotent :
    (∀ (st : GcsState) (bucket : String) (bytes : List Nat)
        (localName gcsPath : String)
        (metadata : Option (List (String × String))) (now : String)
        (blob : Blob) (m : List (String × String)),
        st gcsPath = some blob → blob.meta = some m →
        m.lookup "checksum" = some (calculateChecksum bytes) →
        uploadFile st bucket (some bytes) localName gcsPath metadata now =
          Except.ok (st, "gs://" ++ bucket ++ "/" ++ gcsPath,
                     calculateChecksum bytes))
    ∧ (∀ (st : GcsState) (bucket : String) (bytes : List Nat)
        (localName gcsPath : String)
        (metadata metadata2 : Option (List (String × String))) (now now2 : String)
        (st1 : GcsState) (uri c : String),
        uploadFile st bucket (some bytes) localName gcsPath metadata now =
          Except.ok (st1, uri, c) →
        uploadFile st1 bucket (some bytes) localName gcsPath metadata2 now2 =
          Except.ok (st1, uri, c))
    ∧ (∀ (st : GcsState) (bucket : String) (bytes : List Nat)
        (localName gcsPath : String)
        (metadata : Option (List (String × String))) (now : String)
        (st1 : GcsState) (uri c : String),
        uploadFile st bucket (some bytes) localName gcsPath metadata now =
          Except.ok (st1, uri, c) →
        c = calculateChecksum bytes) := by
  refine ⟨?_, ?_, ?_⟩
  · intro st bucket bytes localName gcsPath metadata now blob m h1 h2 h3
    have hex : existingChecksum st gcsPath = some (calculateChecksum bytes) := by
      simp [existingChecksum, h1, h2, h3]
    simp [uploadFile, hex]
  · intro st bucket bytes localName gcsPath metadata metadata2 now now2 st1 uri c h
    by_cases hex : existingChecksum st gcsPath = some (calculateChecksum bytes)
    · simp [uploadFile, hex] at h
      obtain ⟨hst, huri, hc⟩ := h
      subst hst huri hc
      simp [uploadFile, hex]
    · simp [uploadFile, hex] at h
      obtain ⟨hst, huri, hc⟩ := h
      have hst1 : st1 gcsPath = some ⟨some (pyDictUpdate (metadata.getD [])
          [("checksum", calculateChecksum bytes), ("upload_time", now),
           ("original_filename", localName)]), bytes⟩ := by
        rw [← hst]
        simp
      have hex1 : existingChecksum st1 gcsPath =
          some (calculateChecksum bytes) := by
        unfold existingChecksum
        rw [hst1]
        rfl
      subst huri hc
      simp [uploadFile, hex1]
  · intro st bucket bytes localName gcsPath metadata now st1 uri c h
    by_cases hex : existingChecksum st gcsPath = some (calculateChecksum bytes)
    · simp [uploadFile, hex] at h
      exact h.2.2.symm
    · simp [uploadFile, hex] at h
      exact h.2.2.symm

/-- Witness for C5: re-sending two bytes already stored (with matching
checksum metadata) at `docs/a.pdf` is a no-op returning the existing URI. -/
theorem uploadFile_idempotent_witness :
    uploadFile
      (fun p => if p = "docs/a.pdf" then
          some ⟨some [("checksum", calculateChecksum [37, 80])], [37, 80]⟩
        else none)
      "bkt" (some [37, 80]) "a.pdf" "docs/a.pdf" none "t0" =
      Except.ok
        ((fun p => if p = "docs/a.pdf" then
            some ⟨some [("checksum", calculateChecksum [37, 80])], [37, 80]⟩
          else none),
         "gs://" ++ "bkt" ++ "/" ++ "docs/a.pdf", calculateChecksum [37, 80]) :=
  uploadFile_idempotent.1
    (fun p => if p = "docs/a.pdf" then
        some ⟨some [("checksum", calculateChecksum [37, 80])], [37, 80]⟩
      else none)
    "bkt" [37, 80] "a.pdf" "docs/a.pdf" none "t0"
    ⟨some [("checksum", calculateChecksum [37, 80])], [37, 80]⟩
    [("checksum", calculateChecksum [37, 80])]
    rfl rfl rfl

-- ===========================================================================
-- Cleaning pass deduplication (clean_index_data.deduplicate_records)
-- ===========================================================================

/-- The fields of an `index_documents` row that the dedup pass reads or
writes.  Dates are encoded as naturals (e.g. yyyymmdd); `file_date` is
nullable. -/
structure CRow where
  id : Nat
  book : Nat
  page : Nat
  source : String
  file_date : Option Nat
  import_date : Nat
  download_status : DStatus
  download_error : Option String
deriving DecidableEq, Repr

/-- The partition key `(book, page, source)`. -/
def keyOf (r : CRow) : Nat × Nat × String := (r.book, r.page, r.source)

/-- The skip reason written by the dedup UPDATE. -/
def dupMsg : String := "Duplicate book/page (older record)"

/-- `ORDER BY file_date NULLS LAST`: a non-null date sorts strictly before
null, and smaller dates sort first. -/
def FdLt : Option Nat → Option Nat → Prop
  | some x, some y => x < y
  | some _, none => True
  | none, _ => False

instance : DecidableRel FdLt := fun a b =>
  match a, b with
  | some x, some y => Nat.decLt x y
  | some _, none => isTrue trivial
  | none, _ => isFalse (fun h => h)

/-- Equality under the `file_date NULLS LAST` ordering. -/
def FdEq : Option Nat → Option Nat → Prop
  | some x, some y => x = y
  | none, none => True
  | _, _ => False

instance : DecidableRel FdEq := fun a b =>
  match a, b with
  | some x, some y => Nat.decEq x y
  | none, none => isTrue trivial
  | some _, none => isFalse (fun h => h)
  | none, some _ => isFalse (fun h => h)

/-- Strictly-before in `ORDER BY file_date NULLS LAST, import_date`. -/
def KeyLt (a b : CRow) : Prop :=
  FdLt a.file_date b.file_date ∨
    (FdEq a.file_date b.file_date ∧ a.import_date < b.import_date)

instance (a b : CRow) : Decidable (KeyLt a b) :=
  inferInstanceAs (Decidable (FdLt a.file_date b.file_date ∨
    (FdEq a.file_date b.file_date ∧ a.import_date < b.import_date)))

/-- Ties under the ORDER BY sort key. -/
def KeyEq (a b : CRow) : Prop :=
  FdEq a.file_date b.file_date ∧ a.import_date = b.import_date

instance (a b : CRow) : Decidable (KeyEq a b) :=
  inferInstanceAs (Decidable (FdEq a.file_date b.file_date ∧
    a.import_date = b.import_date))

/-- `a` receives a smaller ROW_NUMBER than `b` within a partition:
strictly-before in the ORDER BY, with remaining ties broken deterministically
by row id (SQL leaves full ties implementation-chosen; the id tie-break is one
such choice). -/
def Prec (a b : CRow) : Prop := KeyLt a b ∨ (KeyEq a b ∧ a.id < b.id)

instance (a b : CRow) : Decidable (Prec a b) :=
  inferInstanceAs (Decidable (KeyLt a b ∨ (KeyEq a b ∧ a.id < b.id)))

/-- `r` gets `ROW_NUMBER() > 1` in its `(book, page, source)` partition over
the pending rows: some other pending row with the same key sorts before it. -/
def demoted (rows : List CRow) (r : CRow) : Bool :=
  rows.any (fun j => decide (j.id ≠ r.id ∧ j.download_status = DStatus.pending
    ∧ keyOf j = keyOf r ∧ Prec j r))

/-- The dedup UPDATE applied to one row: status `skipped`, the duplicate
message as `download_error`; all other fields unchanged. -/
def skipRow (r : CRow) : CRow :=
  { r with download_status := DStatus.skipped, download_error := some dupMsg }

/-- Embedding of `deduplicate_records` (clean_index_data.py lines 201-251):
every pending row whose ROW_NUMBER within its `(book, page, source)` partition
(ordered by `file_date NULLS LAST, import_date`) exceeds 1 is skipped with the
duplicate message; everything else is untouched. -/
def cleanDedup (rows : List CRow) : List CRow :=
  rows.map (fun r =>
    if r.download_status = DStatus.pending ∧ demoted rows r then skipRow r else r)

/-- The pending rows of one partition. -/
def pendingGroup (rows : List CRow) (k : Nat × Nat × String) : List CRow :=
  rows.filter (fun r => decide (r.download_status = DStatus.pending ∧ keyOf r = k))

-- ===========================================================================
-- Theorems: cleaning dedup (C8) — ordering infrastructure
-- ===========================================================================

/-- The ROW_NUMBER precedence is irreflexive. -/
theorem Prec_irrefl (a : CRow) : ¬ Prec a a := by
  unfold Prec KeyLt KeyEq
  cases a.file_date <;> simp [FdLt, FdEq]

/-- The ROW_NUMBER precedence is transitive. -/
theorem Prec_trans {a b c : CRow} (h1 : Prec a b) (h2 : Prec b c) : Prec a c := by
  revert h1 h2
  unfold Prec KeyLt KeyEq
  cases a.file_date <;> cases b.file_date <;> cases c.file_date <;>
    simp [FdLt, FdEq] <;> omega

/-- Rows with distinct ids are always comparable under the precedence. -/
theorem Prec_total {a b : CRow} (h : a.id ≠ b.id) : Prec a b ∨ Prec b a := by
  revert h
  unfold Prec KeyLt KeyEq
  cases a.file_date <;> cases b.file_date <;> simp [FdLt, FdEq] <;> omega

/-- The fold computing the first row of a partition in ROW_NUMBER order. -/
def minBy (m : CRow) (l : List CRow) : CRow :=
  l.foldl (fun acc j => if Prec j acc then j else acc) m

theorem minBy_mem (m : CRow) (l : List CRow) : minBy m l = m ∨ minBy m l ∈ l := by
  induction l generalizing m with
  | nil => exact Or.inl rfl
  | cons a l ih =>
    have e : minBy m (a :: l) = minBy (if Prec a m then a else m) l := rfl
    rcases ih (if Prec a m then a else m) with h | h
    · rw [e, h]
      by_cases hp : Prec a m
      · simp [hp]
      · simp [hp]
    · right
      rw [e]
      exact List.mem_cons_of_mem a h

/-- Nobody in the partition precedes the fold's result (requires pairwise
distinct ids, which SQL primary keys provide). -/
theorem minBy_not_prec (m : CRow) (l : List CRow)
    (hnd : ((m :: l).map CRow.id).Nodup) :
    ∀ j, (j = m ∨ j ∈ l) → ¬ Prec j (minBy m l) := by
  induction l generalizing m with
  | nil =>
    rintro j (rfl | h)
    · exact Prec_irrefl j
    · exact absurd h (List.not_mem_nil j)
  | cons a l ih =>
    intro j hj
    have e : minBy m (a :: l) = minBy (if Prec a m then a else m) l := rfl
    have hparts := List.nodup_cons.mp hnd
    have hma : m.id ≠ a.id := by
      intro hh
      exact hparts.1 (by simp [hh])
    have hml : m.id ∉ l.map CRow.id := by
      intro hh
      exact hparts.1 (by simp [hh])
    have hal : a.id ∉ l.map CRow.id := (List.nodup_cons.mp hparts.2).1
    have hndl : (l.map CRow.id).Nodup := (List.nodup_cons.mp hparts.2).2
    have hnd' : (((if Prec a m then a else m) :: l).map CRow.id).Nodup := by
      by_cases hp : Prec a m
      · simp only [if_pos hp]
        exact hparts.2
      · simp only [if_neg hp]
        exact List.nodup_cons.mpr ⟨hml, hndl⟩
    have ihm := ih (if Prec a m then a else m) hnd'
    rw [e]
    rcases hj with hjm | hj
    · rw [hjm]
      by_cases hp : Prec a m
      · intro hmf
        exact ihm a (Or.inl (if_pos hp).symm) (Prec_trans hp hmf)
      · exact ihm m (Or.inl (if_neg hp).symm)
    · rcases List.mem_cons.mp hj with hja | hj
      · rw [hja]
        by_cases hp : Prec a m
        · exact ihm a (Or.inl (if_pos hp).symm)
        · intro haf
          have hm' : Prec m a := (Prec_total hma).resolve_right hp
          exact ihm m (Or.inl (if_neg hp).symm) (Prec_trans hm' haf)
      · exact ihm j (Or.inr hj)

-- ===========================================================================
-- Theorems: cleaning dedup (C8) — list infrastructure and main theorem
-- ===========================================================================

/-- Filtering a mapped list filters the originals through the map. -/
theorem filterMapComm {α β : Type} (f : α → β) (p : β → Bool) (l : List α) :
    (l.map f).filter p = (l.filter (fun x => p (f x))).map f := by
  induction l with
  | nil => rfl
  | cons a l ih =>
    by_cases h : p (f a) = true
    · simp [List.filter_cons, h, ih]
    · simp [List.filter_cons, h, ih]

/-- A filter that rejects every element gives the empty list. -/
theorem filterNone {α : Type} (p : α → Bool) (l : List α)
    (h : ∀ x ∈ l, p x = false) : l.filter p = [] := by
  induction l with
  | nil => rfl
  | cons a l ih =>
    have ha := h a (List.mem_cons_self a l)
    simp [List.filter_cons, ha,
      ih (fun x hx => h x (List.mem_cons_of_mem a hx))]

/-- In a duplicate-free list, filtering for one contained element yields
exactly that element. -/
theorem filterEqSingleton {α : Type} [DecidableEq α] {l : List α} {a : α}
    (hnd : l.Nodup) (hmem : a ∈ l) :
    l.filter (fun x => decide (x = a)) = [a] := by
  induction l with
  | nil => cases hmem
  | cons b l ih =>
    have hbl := (List.nodup_cons.mp hnd).1
    have hndl := (List.nodup_cons.mp hnd).2
    rcases List.mem_cons.mp hmem with hab | hal
    · have hba : b = a := hab.symm
      have hfl : l.filter (fun x => decide (x = a)) = [] := by
        apply filterNone
        intro x hx
        have hxa : ¬ (x = a) := by
          intro hh
          rw [hh, hab] at hx
          exact hbl hx
        simp [hxa]
      simp [List.filter_cons, hba, hfl]
    · have hba : ¬ (b = a) := by
        intro hh
        exact hbl (hh ▸ hal)
      simp [List.filter_cons, hba, ih hndl hal]

/-- Unfolding of the partition membership test. -/
theorem mem_pendingGroup (rows : List CRow) (k : Nat × Nat × String) (r : CRow) :
    r ∈ pendingGroup rows k ↔
      r ∈ rows ∧ r.download_status = DStatus.pending ∧ keyOf r = k := by
  simp [pendingGroup, List.mem_filter]

/-- Unfolding of `demoted`. -/
theorem demoted_eq_true_iff (rows : List CRow) (r : CRow) :
    demoted rows r = true ↔
      ∃ j ∈ rows, j.id ≠ r.id ∧ j.download_status = DStatus.pending
        ∧ keyOf j = keyOf r ∧ Prec j r := by
  simp [demoted, List.any_eq_true]

/-- Concrete rows of the spec's dedup scenario: three pending rows sharing
`(book=100, page=5, source=DuProcess)` with file dates 2010-01-01, 2011-01-01
and NULL. -/
def scenarioRows : List CRow :=
  [⟨1, 100, 5, "DuProcess", some 20100101, 1, DStatus.pending, none⟩,
   ⟨2, 100, 5, "DuProcess", some 20110101, 2, DStatus.pending, none⟩,
   ⟨3, 100, 5, "DuProcess", none, 3, DStatus.pending, none⟩]

/-- C8: in the cleaning pass, for each `(book, page, source)` partition with
at least two pending rows (ids being distinct, as primary keys are), exactly
one row survives as pending — one that no other group member strictly precedes
under `file_date NULLS LAST, import_date` — and every other pending row of the
partition appears in the output as the same row with status `skipped` and
error "Duplicate book/page (older record)".  Concretely, of three pending rows
sharing `(100, 5, DuProcess)` with file dates 2010-01-01, 2011-01-01, NULL,
the 2010 row stays pending and the other two are skipped with that message. -/
theorem cleanDedup_spec :
    (∀ (rows : List CRow) (k : Nat × Nat × String),
      (rows.map CRow.id).Nodup →
      2 ≤ (pendingGroup rows k).length →
      ∃ s, s ∈ pendingGroup rows k
        ∧ (cleanDedup rows).filter
            (fun x => decide (x.download_status = DStatus.pending ∧ keyOf x = k))
            = [s]
        ∧ (∀ r ∈ pendingGroup rows k, r ≠ s → ¬ KeyLt r s)
        ∧ (∀ r ∈ pendingGroup rows k, r ≠ s → skipRow r ∈ cleanDedup rows))
    ∧ cleanDedup scenarioRows =
        [⟨1, 100, 5, "DuProcess", some 20100101, 1, DStatus.pending, none⟩,
         ⟨2, 100, 5, "DuProcess", some 20110101, 2, DStatus.skipped,
          some dupMsg⟩,
         ⟨3, 100, 5, "DuProcess", none, 3, DStatus.skipped, some dupMsg⟩] := by
  constructor
  · intro rows k hnd hlen
    obtain ⟨g, gt, hG⟩ : ∃ g gt, pendingGroup rows k = g :: gt := by
      cases hGl : pendingGroup rows k with
      | nil => rw [hGl] at hlen; simp at hlen
      | cons g gt => exact ⟨g, gt, rfl⟩
    have hndG : ((pendingGroup rows k).map CRow.id).Nodup := by
      have hsub : List.Sublist ((pendingGroup rows k).map CRow.id)
          (rows.map CRow.id) :=
        List.Sublist.map CRow.id (List.filter_sublist _)
      exact List.Nodup.sublist hsub hnd
    have hmin : ∀ j ∈ pendingGroup rows k, ¬ Prec j (minBy g gt) := by
      intro j hj
      rw [hG] at hj
      have hndgg : ((g :: gt).map CRow.id).Nodup := by
        rw [← hG]; exact hndG
      exact minBy_not_prec g gt hndgg j (List.mem_cons.mp hj)
    have hsG : minBy g gt ∈ pendingGroup rows k := by
      rw [hG]
      rcases minBy_mem g gt with h | h
      · rw [h]; exact List.mem_cons_self g gt
      · exact List.mem_cons_of_mem g h
    have hsRows : minBy g gt ∈ rows := ((mem_pendingGroup rows k _).mp hsG).1
    have hsPend : (minBy g gt).download_status = DStatus.pending :=
      ((mem_pendingGroup rows k _).mp hsG).2.1
    have hsKey : keyOf (minBy g gt) = k := ((mem_pendingGroup rows k _).mp hsG).2.2
    have hinj := List.inj_on_of_nodup_map hnd
    have hsNotDem : demoted rows (minBy g gt) = false := by
      rcases Bool.eq_false_or_eq_true (demoted rows (minBy g gt)) with h | h
      swap
      · exact h
      · exfalso
        obtain ⟨j, hjrows, hjid, hjpend, hjkey, hjprec⟩ :=
          (demoted_eq_true_iff rows _).mp h
        have hjG : j ∈ pendingGroup rows k :=
          (mem_pendingGroup rows k j).mpr ⟨hjrows, hjpend, by rw [hjkey, hsKey]⟩
        exact hmin j hjG hjprec
    have hOthers : ∀ r ∈ pendingGroup rows k, r ≠ minBy g gt →
        demoted rows r = true := by
      intro r hr hne
      have hrRows : r ∈ rows := ((mem_pendingGroup rows k r).mp hr).1
      have hrKey : keyOf r = k := ((mem_pendingGroup rows k r).mp hr).2.2
      have hid : r.id ≠ (minBy g gt).id := by
        intro hh
        exact hne (hinj hrRows hsRows hh)
      rcases Prec_total hid with hrs | hsr
      · exact absurd hrs (hmin r hr)
      · exact (demoted_eq_true_iff rows r).mpr
          ⟨minBy g gt, hsRows, fun hh => hid hh.symm, hsPend,
           by rw [hsKey, hrKey], hsr⟩
    have hStepS : (if (minBy g gt).download_status = DStatus.pending ∧
        demoted rows (minBy g gt) then skipRow (minBy g gt) else minBy g gt)
        = minBy g gt := by
      rw [if_neg]
      rintro ⟨_, hdem⟩
      simp [hsNotDem] at hdem
    refine ⟨minBy g gt, hsG, ?_, ?_, ?_⟩
    · have h1 : cleanDedup rows = rows.map (fun r =>
          if r.download_status = DStatus.pending ∧ demoted rows r
          then skipRow r else r) := rfl
      rw [h1, filterMapComm]
      have h2 : rows.filter (fun x =>
          decide (((if x.download_status = DStatus.pending ∧ demoted rows x
            then skipRow x else x)).download_status = DStatus.pending ∧
            keyOf (if x.download_status = DStatus.pending ∧ demoted rows x
            then skipRow x else x) = k))
          = rows.filter (fun x => decide (x = minBy g gt)) := by
        apply List.filter_congr
        intro x hx
        by_cases hxs : x = minBy g gt
        · rw [hxs, hStepS]
          simp [hsPend, hsKey]
        · have hrhs : decide (x = minBy g gt) = false := by simp [hxs]
          rw [hrhs]
          by_cases hpend : x.download_status = DStatus.pending
          · by_cases hkey : keyOf x = k
            · have hxG : x ∈ pendingGroup rows k :=
                (mem_pendingGroup rows k x).mpr ⟨hx, hpend, hkey⟩
              have hdem := hOthers x hxG hxs
              rw [if_pos ⟨hpend, by rw [hdem]⟩]
              simp [skipRow]
            · by_cases hdem2 : demoted rows x = true
              · rw [if_pos ⟨hpend, by rw [hdem2]⟩]
                simp [skipRow]
              · rw [if_neg (fun hh => hdem2 (by exact hh.2))]
                simp [hkey]
          · rw [if_neg (fun hh => hpend hh.1)]
            simp [hpend]
      rw [h2, filterEqSingleton (List.Nodup.of_map CRow.id hnd) hsRows]
      simp [hStepS]
    · intro r hr hne hklt
      exact hmin r hr (Or.inl hklt)
    · intro r hr hne
      have hrRows : r ∈ rows := ((mem_pendingGroup rows k r).mp hr).1
      have hrPend : r.download_status = DStatus.pending :=
        ((mem_pendingGroup rows k r).mp hr).2.1
      have hdem := hOthers r hr hne
      have hstep : (if r.download_status = DStatus.pending ∧ demoted rows r
          then skipRow r else r) = skipRow r :=
        if_pos ⟨hrPend, by rw [hdem]⟩
      have h1 : cleanDedup rows = rows.map (fun r =>
          if r.download_status = DStatus.pending ∧ demoted rows r
          then skipRow r else r) := rfl
      rw [h1, ← hstep]
      exact List.mem_map_of_mem _ hrRows
  · decide

/-- Witness for C8: the general part applied to the concrete three-row
scenario group. -/
theorem cleanDedup_spec_witness :
    ∃ s, s ∈ pendingGroup scenarioRows (100, 5, "DuProcess")
      ∧ (cleanDedup scenarioRows).filter
          (fun x => decide (x.download_status = DStatus.pending ∧
            keyOf x = (100, 5, "DuProcess"))) = [s]
      ∧ (∀ r ∈ pendingGroup scenarioRows (100, 5, "DuProcess"),
          r ≠ s → ¬ KeyLt r s)
      ∧ (∀ r ∈ pendingGroup scenarioRows (100, 5, "DuProcess"),
          r ≠ s → skipRow r ∈ cleanDedup scenarioRows) :=
  cleanDedup_spec.1 scenarioRows (100, 5, "DuProcess") (by decide) (by decide)

-- ===========================================================================
-- Instrument-number download (simple_doc_downloader.download_by_instrument)
-- ===========================================================================

/-- Metadata parsed from the portal's HTML results page
(`_parse_html_response` only constructs it when both book and page were
extracted). -/
structure DocumentMetadata where
  instrument_number : Nat
  book : Nat
  page : Nat
  grantor : String
  grantee : String
  doc_type : String
  doc_nature : String
  date_recorded : String
  image_id : Option String
deriving DecidableEq, Repr

/-- The `DownloadResult` dataclass. -/
structure DownloadResult where
  success : Bool
  instrument_number : Option Nat
  expected_book : Option Nat
  expected_page : Option Nat
  actual_book : Option Nat
  actual_page : Option Nat
  book_page_mismatch : Bool
  local_path : Option String
  error : Option String
deriving DecidableEq, Repr

/-- The exceptions the `requests` calls can raise inside the `try` block. -/
inductive ReqError where
  | timeout
  | requestExc (msg : String)
  | unexpected (msg : String)
deriving DecidableEq, Repr

/-- The error strings built by the three `except` clauses. -/
def reqErrorMsg (timeoutSecs : Nat) : ReqError → String
  | ReqError.timeout => "Request timeout after " ++ toString timeoutSecs ++ "s"
  | ReqError.requestExc m => "Request error: " ++ m
  | ReqError.unexpected m => "Unexpected error: " ++ m

/-- Python truthiness of an optional integer (`None` and `0` are falsy). -/
def pyTruthyOptNat : Option Nat → Bool
  | none => false
  | some n => decide (n ≠ 0)

/-- Python truthiness of an optional string (`None` and `""` are falsy). -/
def pyTruthyOptStr : Option String → Bool
  | none => false
  | some s => decide (s ≠ "")

/-- Embedding of `MadisonCountyDownloader.download_by_instrument`
(simple_doc_downloader.py lines 101-219).  The two effectful steps are
explicit outcomes: `fetchOutcome` is `_fetch_document_metadata` (an exception,
no metadata, or parsed metadata) and `pdfOutcome` is `_download_pdf` (an
exception, `None` for a non-PDF response, or the saved path — Python's
`str(None)` makes the literal string "None" on that odd path).  Every raise
inside the `try` is caught by an `except` clause, so the function always
returns a `DownloadResult`. -/
def downloadByInstrument (instr : Nat) (expectedBook expectedPage : Option Nat)
    (timeoutSecs : Nat)
    (fetchOutcome : Except ReqError (Option DocumentMetadata))
    (pdfOutcome : Except ReqError (Option String)) : DownloadResult :=
  match fetchOutcome with
  | Except.error e =>
    ⟨false, some instr, expectedBook, expectedPage, none, none, false, none,
     some (reqErrorMsg timeoutSecs e)⟩
  | Except.ok none =>
    ⟨false, some instr, expectedBook, expectedPage, none, none, false, none,
     some "Document not found or no metadata returned"⟩
  | Except.ok (some md) =>
    let mismatch :=
      if pyTruthyOptNat expectedBook ∧ pyTruthyOptNat expectedPage then
        decide (md.book ≠ expectedBook.getD 0 ∨ md.page ≠ expectedPage.getD 0)
      else false
    if pyTruthyOptStr md.image_id then
      match pdfOutcome with
      | Except.error e =>
        ⟨false, some instr, expectedBook, expectedPage, none, none, false,
         none, some (reqErrorMsg timeoutSecs e)⟩
      | Except.ok lp =>
        ⟨true, some instr, expectedBook, expectedPage, some md.book,
         some md.page, mismatch, some (lp.getD "None"), none⟩
    else
      ⟨false, some instr, expectedBook, expectedPage, some md.book,
       some md.page, mismatch, none,
       some "No image_id found in response (no PDF available)"⟩

-- ===========================================================================
-- Theorems: download result totality (C10)
-- ===========================================================================

/-- C10: `download_by_instrument` never propagates an exception — for every
combination of step outcomes it returns a `DownloadResult` (the embedding is
total) in which `success = true` exactly when `error = None`; and on success
the `actual_book`/`actual_page` fields are the (non-null) book and page of the
metadata parsed from the portal's HTML response. -/
theorem downloadByInstrument_total_result :
    ∀ (instr : Nat) (expectedBook expectedPage : Option Nat)
      (timeoutSecs : Nat)
      (fetchOutcome : Except ReqError (Option DocumentMetadata))
      (pdfOutcome : Except ReqError (Option String)) (r : DownloadResult),
      r = downloadByInstrument instr expectedBook expectedPage timeoutSecs
            fetchOutcome pdfOutcome →
      (r.success = true ↔ r.error = none)
      ∧ (r.success = true →
          ∃ md, fetchOutcome = Except.ok (some md)
            ∧ r.actual_book = some md.book ∧ r.actual_page = some md.page) := by
  intro instr eb ep ts fo po r hr
  subst hr
  rcases fo with e | mdo
  · simp [downloadByInstrument]
  · rcases mdo with _ | md
    · simp [downloadByInstrument]
    · by_cases himg : pyTruthyOptStr md.image_id = true
      · rcases po with e | lp
        · simp [downloadByInstrument, himg]
        · refine ⟨by simp [downloadByInstrument, himg], ?_⟩
          intro _
          exact ⟨md, rfl, by simp [downloadByInstrument, himg],
                 by simp [downloadByInstrument, himg]⟩
      · simp [downloadByInstrument, himg]

/-- Witness for C10: a concrete successful download; the success case yields
the parsed metadata's book and page. -/
theorem downloadByInstrument_total_result_witness :
    ∃ md, (Except.ok (some (⟨62379, 9, 264, "", "", "", "", "", some "123"⟩ :
            DocumentMetadata)) :
            Except ReqError (Option DocumentMetadata)) = Except.ok (some md)
      ∧ (downloadByInstrument 62379 (some 9) (some 264) 30
          (Except.ok (some ⟨62379, 9, 264, "", "", "", "", "", some "123"⟩))
          (Except.ok (some "0009-0264.pdf"))).actual_book = some md.book
      ∧ (downloadByInstrument 62379 (some 9) (some 264) 30
          (Except.ok (some ⟨62379, 9, 264, "", "", "", "", "", some "123"⟩))
          (Except.ok (some "0009-0264.pdf"))).actual_page = some md.page :=
  (downloadByInstrument_total_result 62379 (some 9) (some 264) 30
    (Except.ok (some ⟨62379, 9, 264, "", "", "", "", "", some "123"⟩))
    (Except.ok (some "0009-0264.pdf")) _ rfl).2 (by decide)
